import Mathlib

/-!
A verification development for the home-management system's core:
the contribution/transfer ledger, the home-membership operations, and
the token service.  The Python source (src/database.py, src/auth.py,
src/main.py) is shallowly embedded: each storage table becomes a list
field of `DBState`, each operation becomes a pure function on `DBState`
returning its result together with the post-state, and monetary
amounts (SQL DECIMAL) become rationals.  Storage writes inside
`create_transfer` are numbered so that a fault can be injected between
them, reflecting the fact that the source issues its three INSERTs
without a transaction.
-/

/-- A row of the `users` table (database.py, create_tables). -/
structure UserRec where
  uid : Nat
  username : String
  email : String
  fullName : String
  hashedPassword : String
  isActive : Bool
  homeId : Option Nat
deriving DecidableEq

/-- A row of the `homes` table. -/
structure HomeRec where
  hid : Nat
  name : String
  description : String
  leaderUsername : String
deriving DecidableEq

/-- A row of the `home_members` table. -/
structure MemberRec where
  homeId : Nat
  username : String
deriving DecidableEq

/-- A row of the `contributions` table; `amount` is the signed DECIMAL. -/
structure ContribRec where
  cid : Nat
  username : String
  homeId : Nat
  productName : String
  amount : ℚ
  description : String
deriving DecidableEq

/-- A row of the `transfers` table. -/
structure TransferRec where
  tid : Nat
  senderUsername : String
  recipientUsername : String
  homeId : Nat
  amount : ℚ
  description : String
deriving DecidableEq

/-- A row of the `join_requests` table; `status` is one of
"pending", "approved", "rejected". -/
structure JoinRequestRec where
  rid : Nat
  username : String
  homeId : Nat
  homeName : String
  status : String
deriving DecidableEq

/-- The argument object of `create_transfer` (models.TransferCreate). -/
structure TransferCreate where
  recipientUsername : String
  amount : ℚ
  description : Option String
deriving DecidableEq

/-- The whole relational store; the `next*` fields model the SERIAL
primary-key counters of the corresponding tables. -/
structure DBState where
  users : List UserRec
  homes : List HomeRec
  members : List MemberRec
  contributions : List ContribRec
  transfers : List TransferRec
  joinRequests : List JoinRequestRec
  nextHomeId : Nat
  nextContribId : Nat
  nextTransferId : Nat
  nextRequestId : Nat
deriving DecidableEq

/-- `Database.get_user`: first row of `users` with the given username. -/
def getUser (s : DBState) (username : String) : Option UserRec :=
  s.users.find? (fun u => u.username == username)

/-- The home row returned by `Database.get_home` (the accompanying
member list is read separately via `getHomeMembers`). -/
def getHomeRec (s : DBState) (hid : Nat) : Option HomeRec :=
  s.homes.find? (fun h => h.hid == hid)

/-- The `members` list that `Database.get_home` attaches to a home:
usernames of all `home_members` rows of that home. -/
def getHomeMembers (s : DBState) (hid : Nat) : List String :=
  (s.members.filter (fun m => m.homeId == hid)).map (fun m => m.username)

/-- `Database.create_contribution`: stamps the author's current home
onto the new row and fails when the author is missing or homeless. -/
def createContribution (s : DBState) (username : String) (productName : String)
    (amount : ℚ) (description : String) : Except String (ContribRec × DBState) :=
  match getUser s username with
  | none => .error "User must belong to a home to create contributions"
  | some u =>
    match u.homeId with
    | none => .error "User must belong to a home to create contributions"
    | some h =>
      let c : ContribRec :=
        { cid := s.nextContribId, username := username, homeId := h,
          productName := productName, amount := amount, description := description }
      .ok (c, { s with contributions := s.contributions ++ [c],
                       nextContribId := s.nextContribId + 1 })

/-- `Database.create_transfer`.  Validation order follows the source:
user existence, shared non-null home, self-transfer, positive amount.
The three storage writes (transfer INSERT, sender-leg INSERT,
recipient-leg INSERT) are numbered 0, 1, 2; `failAt = some k` models a
storage fault at write `k`.  The source wraps the writes in no
transaction, so on a fault the earlier writes stay committed: the
returned `DBState` is what the store then holds.  `failAt = none` is
the fault-free run. -/
def createTransfer (s : DBState) (senderUsername : String) (td : TransferCreate)
    (failAt : Option Nat) : Except String TransferRec × DBState :=
  match getUser s senderUsername, getUser s td.recipientUsername with
  | some sender, some recipient =>
    match sender.homeId, recipient.homeId with
    | some sh, some rh =>
      if sh ≠ rh then
        (.error "Users must belong to the same home to transfer money", s)
      else if senderUsername = td.recipientUsername then
        (.error "Cannot transfer to yourself", s)
      else if td.amount ≤ 0 then
        (.error "Transfer amount must be positive", s)
      else if failAt = some 0 then
        (.error "storage failure", s)
      else
        let t : TransferRec :=
          { tid := s.nextTransferId, senderUsername := senderUsername,
            recipientUsername := td.recipientUsername, homeId := sh,
            amount := td.amount,
            description := td.description.getD "Fund transfer to balance contributions" }
        let s1 := { s with transfers := s.transfers ++ [t],
                           nextTransferId := s.nextTransferId + 1 }
        if failAt = some 1 then (.error "storage failure", s1)
        else
          match createContribution s1 senderUsername
              ("Fund transfer to " ++ recipient.fullName) td.amount
              ("Transfer to " ++ recipient.fullName ++ ": " ++
                td.description.getD "Balancing household contributions") with
          | .error e => (.error e, s1)
          | .ok (_, s2) =>
            if failAt = some 2 then (.error "storage failure", s2)
            else
              match createContribution s2 td.recipientUsername
                  ("Fund received from " ++ sender.fullName) (-td.amount)
                  ("Received from " ++ sender.fullName ++ ": " ++
                    td.description.getD "Balancing household contributions") with
              | .error e => (.error e, s2)
              | .ok (_, s3) => (.ok t, s3)
    | _, _ => (.error "Users must belong to the same home to transfer money", s)
  | _, _ => (.error "User not found", s)

/-- `Database.delete_contribution`: deletes rows whose id and author
both match, and returns whether any row was deleted. -/
def deleteContribution (s : DBState) (cid : Nat) (username : String) :
    Bool × DBState :=
  let remaining :=
    s.contributions.filter (fun c => !(c.cid == cid && c.username == username))
  (decide (remaining.length < s.contributions.length),
   { s with contributions := remaining })

/-- `Database.remove_member_from_home`: after the leader and
not-the-leader checks it deletes the `(home_id, username)` membership
row and unconditionally nulls the target's `home_id` — the source
never checks that the target is actually a member of this home. -/
def removeMemberFromHome (s : DBState) (homeId : Nat)
    (username : String) (leaderUsername : String) : Bool × DBState :=
  match getHomeRec s homeId with
  | none => (false, s)
  | some home =>
    if home.leaderUsername ≠ leaderUsername then (false, s)
    else if username = leaderUsername then (false, s)
    else
      (true,
       { s with
         members := s.members.filter
           (fun m => !(m.homeId == homeId && m.username == username)),
         users := s.users.map
           (fun u => if u.username = username then { u with homeId := none } else u) })

/-- `Database.leave_home`: a leader may leave only when sole member, in
which case the home row is deleted after the membership row and the
user's `home_id`. -/
def leaveHome (s : DBState) (username : String) : Bool × DBState :=
  match getUser s username with
  | none => (false, s)
  | some user =>
    match user.homeId with
    | none => (false, s)
    | some hid =>
      match getHomeRec s hid with
      | none => (false, s)
      | some home =>
        let memberCount := (getHomeMembers s hid).length
        if home.leaderUsername = username ∧ memberCount > 1 then (false, s)
        else
          let s1 :=
            { s with
              members := s.members.filter
                (fun m => !(m.homeId == hid && m.username == username)),
              users := s.users.map
                (fun u => if u.username = username then { u with homeId := none } else u) }
          let s2 :=
            if home.leaderUsername = username ∧ memberCount = 1 then
              { s1 with homes := s1.homes.filter (fun h => !(h.hid == hid)) }
            else s1
          (true, s2)

/-- `Database.create_join_request`: looks the home up by name, refuses
a duplicate pending request for the same (user, home), and otherwise
inserts a pending request row. -/
def createJoinRequest (s : DBState) (username : String) (homeName : String) :
    Bool × DBState :=
  match s.homes.find? (fun h => h.name == homeName) with
  | none => (false, s)
  | some home =>
    if s.joinRequests.any (fun r =>
        r.username == username && r.homeId == home.hid && r.status == "pending") then
      (false, s)
    else
      (true,
       { s with
         joinRequests := s.joinRequests ++
           [{ rid := s.nextRequestId, username := username, homeId := home.hid,
              homeName := homeName, status := "pending" }],
         nextRequestId := s.nextRequestId + 1 })

/-- The record returned by `Database.get_contribution_to_average`. -/
structure AvgStats where
  userTotal : ℚ
  averageContribution : ℚ
  amountToReachAverage : ℚ
  isAboveAverage : Bool
  homeMembersCount : Nat
  homeTotal : ℚ
deriving DecidableEq

/-- `Database.get_contribution_to_average`: home total and user total
are sums over the home's contribution rows; the average divides by the
number of membership rows of the home. -/
def getContributionToAverage (s : DBState) (username : String) : AvgStats :=
  match getUser s username with
  | none => ⟨0, 0, 0, false, 0, 0⟩
  | some user =>
    match user.homeId with
    | none => ⟨0, 0, 0, false, 0, 0⟩
    | some hid =>
      match getHomeRec s hid with
      | none => ⟨0, 0, 0, false, 0, 0⟩
      | some _home =>
        let homeTotal :=
          ((s.contributions.filter (fun c => c.homeId == hid)).map
            (fun c => c.amount)).sum
        let userTotal :=
          ((s.contributions.filter (fun c =>
              c.username == username && c.homeId == hid)).map
            (fun c => c.amount)).sum
        let homeMembersCount := (getHomeMembers s hid).length
        let averageContribution :=
          if homeMembersCount > 0 then homeTotal / (homeMembersCount : ℚ) else 0
        { userTotal := userTotal,
          averageContribution := averageContribution,
          amountToReachAverage := max 0 (averageContribution - userTotal),
          isAboveAverage := decide (userTotal ≥ averageContribution),
          homeMembersCount := homeMembersCount,
          homeTotal := homeTotal }

/-- `LIKE 'pat%'`: the pattern is a prefix of the text (character-wise,
no further wildcards occur in the source's patterns). -/
def strStartsWith (p t : String) : Bool :=
  p.data.isPrefixOf t.data

/-- The SQL filter of the product rollup: rows whose product name
matches `'Fund transfer%'` or `'Fund received%'` are excluded. -/
def isFundRow (c : ContribRec) : Bool :=
  strStartsWith "Fund transfer" c.productName ||
  strStartsWith "Fund received" c.productName

/-- The `contributions_by_product` query of
`Database.get_home_analytics`: contributions of the home, minus the
fund-transfer rows, grouped by product name into (count, sum of
amounts), ordered by the summed amount descending. -/
def productRollup (s : DBState) (hid : Nat) : List (String × Nat × ℚ) :=
  let rows := s.contributions.filter (fun c => c.homeId == hid && !(isFundRow c))
  let products := (rows.map (fun c => c.productName)).dedup
  let entries := products.map (fun p =>
    let prows := rows.filter (fun c => c.productName == p)
    (p, prows.length, (prows.map (fun c => c.amount)).sum))
  List.insertionSort (fun a b => b.2.2 ≤ a.2.2) entries

/-- Invariant I1 as a decidable check: a user's home reference is
`some h` exactly when the user's membership rows are nonempty and all
sit in home `h`; a homeless user has no membership rows. -/
def inv1 (s : DBState) : Bool :=
  s.users.all (fun u =>
    match u.homeId with
    | none => !(s.members.any (fun m => m.username == u.username))
    | some h =>
      (s.members.any (fun m => m.homeId == h && m.username == u.username)) &&
      s.members.all (fun m => !(m.username == u.username) || (m.homeId == h)))

/-- The outcome kinds of `AuthManager.verify_token` (auth.py): the
raised `JWTError`s, in source order missing / revoked / invalid /
expired / wrong kind. -/
inductive VerifyErr where
  | missing
  | revoked
  | expired
  | invalid
  | wrongKind
deriving DecidableEq

/-- The claims a decoded JWT carries (sub, exp, type, jti). -/
structure Payload where
  sub : String
  exp : Int
  kind : String
  jti : String
deriving DecidableEq

/-- The token service's state: `signedTokens` abstracts the signature —
it associates to each token string signed under the process key its
payload (any other string fails signature validation) — and
`blacklist` is the in-memory `TokenBlacklist` set of revoked token
strings. -/
structure AuthState where
  signedTokens : List (String × Payload)
  blacklist : List String
deriving DecidableEq

/-- The `jose.jwt.decode` step of `verify_token`: a token that is not
validly signed is invalid; a signed token whose expiry has passed
(`now ≥ exp`) raises the expired error; otherwise the payload is
returned. -/
def decodeToken (s : AuthState) (now : Int) (token : String) :
    Except VerifyErr Payload :=
  match s.signedTokens.find? (fun e => e.1 == token) with
  | none => .error .invalid
  | some e => if e.2.exp ≤ now then .error .expired else .ok e.2

/-- `AuthManager.verify_token`: empty-token check, then blacklist
check, then decode (signature + expiry), then the token-type check. -/
def verifyToken (s : AuthState) (now : Int) (token : String)
    (tokenType : String) : Except VerifyErr Payload :=
  if token = "" then .error .missing
  else if token ∈ s.blacklist then .error .revoked
  else
    match decodeToken s now token with
    | .error e => .error e
    | .ok p => if p.kind ≠ tokenType then .error .wrongKind else .ok p

/-- `AuthManager.revoke_token`: blacklists the token string iff it
currently verifies as an access token; otherwise a no-op. -/
def revokeToken (s : AuthState) (now : Int) (token : String) : AuthState :=
  match verifyToken s now token "access" with
  | .ok _ => { s with blacklist := token :: s.blacklist }
  | .error _ => s

/-- Effect characterization of a fault-free successful `create_transfer`:
the validations passed, the transfer row is appended, and exactly the
two offsetting fund contributions are appended, in order. -/
theorem createTransfer_ok_effects
    (s : DBState) (senderU : String) (td : TransferCreate)
    (t : TransferRec) (s' : DBState)
    (h : createTransfer s senderU td none = (.ok t, s')) :
    ∃ sender recipient sh,
      getUser s senderU = some sender ∧
      getUser s td.recipientUsername = some recipient ∧
      sender.homeId = some sh ∧ recipient.homeId = some sh ∧
      senderU ≠ td.recipientUsername ∧ 0 < td.amount ∧
      t = { tid := s.nextTransferId, senderUsername := senderU,
            recipientUsername := td.recipientUsername, homeId := sh,
            amount := td.amount,
            description := td.description.getD "Fund transfer to balance contributions" } ∧
      s' = { s with
             transfers := s.transfers ++ [t],
             nextTransferId := s.nextTransferId + 1,
             contributions := s.contributions ++
               [ { cid := s.nextContribId, username := senderU, homeId := sh,
                   productName := "Fund transfer to " ++ recipient.fullName,
                   amount := td.amount,
                   description := "Transfer to " ++ recipient.fullName ++ ": " ++
                     td.description.getD "Balancing household contributions" },
                 { cid := s.nextContribId + 1, username := td.recipientUsername,
                   homeId := sh,
                   productName := "Fund received from " ++ sender.fullName,
                   amount := -td.amount,
                   description := "Received from " ++ sender.fullName ++ ": " ++
                     td.description.getD "Balancing household contributions" } ],
             nextContribId := s.nextContribId + 2 } := by
  unfold createTransfer at h
  split at h
  case _ sender recipient hgs hgr =>
    split at h
    case _ sh rh hsh hrh =>
      split_ifs at h with hneq hself hamt hf0
      · simp at h
      · simp at h
      · simp at h
      · simp at hf0
      · have hshrh : sh = rh := not_ne_iff.mp hneq
        subst hshrh
        have hgs0 := hgs
        have hgr0 := hgr
        simp only [getUser] at hgs hgr
        simp only [createContribution, getUser, reduceIte, hgs, hgr, hsh, hrh,
          Prod.mk.injEq, Except.ok.injEq] at h
        obtain ⟨ht, hs'⟩ := h
        refine ⟨sender, recipient, sh, hgs0, hgr0, hsh, hrh, hself,
          lt_of_not_le hamt, ht.symm, ?_⟩
        rw [← hs', List.append_assoc, ht]
        rfl
    case _ =>
      simp at h
  case _ =>
    simp at h

/-- C1: for every transfer created by `create_transfer` with amount
`a`, the ledger gains exactly one contribution authored by the sender
with amount `+a` and product "Fund transfer to <recipient display
name>", and exactly one authored by the recipient with amount `-a` and
product "Fund received from <sender display name>", both stamped with
the transfer's home; the two amounts sum to zero. -/
theorem transfer_creates_offsetting_pair
    (s : DBState) (senderU : String) (td : TransferCreate)
    (t : TransferRec) (s' : DBState)
    (h : createTransfer s senderU td none = (.ok t, s')) :
    ∃ sender recipient c1 c2,
      getUser s senderU = some sender ∧
      getUser s td.recipientUsername = some recipient ∧
      s'.contributions = s.contributions ++ [c1, c2] ∧
      c1.username = t.senderUsername ∧
      c1.productName = "Fund transfer to " ++ recipient.fullName ∧
      c1.amount = t.amount ∧ c1.homeId = t.homeId ∧
      c2.username = t.recipientUsername ∧
      c2.productName = "Fund received from " ++ sender.fullName ∧
      c2.amount = -t.amount ∧ c2.homeId = t.homeId ∧
      c1.amount + c2.amount = 0 := by
  obtain ⟨sender, recipient, sh, hgs, hgr, hsh, hrh, hne, hpos, ht, hs'⟩ :=
    createTransfer_ok_effects s senderU td t s' h
  subst ht hs'
  exact ⟨sender, recipient, _, _, hgs, hgr, rfl, rfl, rfl, rfl, rfl, rfl, rfl,
    rfl, rfl, by ring⟩

/-- A concrete two-member household used to witness the theorems:
Alice and Bob share home 1. -/
def wAlice : UserRec := ⟨1, "alice", "alice@x", "Alice", "h", true, some 1⟩

/-- Bob, the second member of home 1. -/
def wBob : UserRec := ⟨2, "bob", "bob@x", "Bob", "h", true, some 1⟩

/-- The witness database: home 1 "Maple" led by alice, with members
alice and bob and an empty ledger. -/
def wState : DBState :=
  ⟨[wAlice, wBob], [⟨1, "Maple", "", "alice"⟩], [⟨1, "alice"⟩, ⟨1, "bob"⟩],
   [], [], [], 2, 1, 1, 1⟩

/-- A transfer request of 20 from alice to bob. -/
def wTd : TransferCreate := ⟨"bob", 20, none⟩

/-- The transfer row the witness run produces. -/
def wT : TransferRec :=
  ⟨1, "alice", "bob", 1, 20, "Fund transfer to balance contributions"⟩

/-- The database after the witness transfer. -/
def wPost : DBState := (createTransfer wState "alice" wTd none).2

/-- Witness for C1: the theorem applied to the concrete transfer of 20
from alice to bob. -/
theorem transfer_creates_offsetting_pair_witness :
    ∃ sender recipient c1 c2,
      getUser wState "alice" = some sender ∧
      getUser wState wTd.recipientUsername = some recipient ∧
      wPost.contributions = wState.contributions ++ [c1, c2] ∧
      c1.username = wT.senderUsername ∧
      c1.productName = "Fund transfer to " ++ recipient.fullName ∧
      c1.amount = wT.amount ∧ c1.homeId = wT.homeId ∧
      c2.username = wT.recipientUsername ∧
      c2.productName = "Fund received from " ++ sender.fullName ∧
      c2.amount = -wT.amount ∧ c2.homeId = wT.homeId ∧
      c1.amount + c2.amount = 0 :=
  transfer_creates_offsetting_pair wState "alice" wTd wT wPost rfl

/-- C2: `create_transfer` issues its three writes without a
transaction, so a storage fault at the third write (the recipient's
offsetting INSERT) leaves the store with the Transfer row and the
sender's +20 contribution committed but no recipient contribution:
the operation failed yet one half of the pair is observable. -/
theorem transfer_not_atomic_bug :
    (createTransfer wState "alice" wTd (some 2)).1.isOk = false ∧
    (createTransfer wState "alice" wTd (some 2)).2.transfers = [wT] ∧
    (createTransfer wState "alice" wTd (some 2)).2.contributions =
      [⟨1, "alice", 1, "Fund transfer to Bob", 20,
        "Transfer to Bob: Balancing household contributions"⟩] ∧
    ((createTransfer wState "alice" wTd (some 2)).2.contributions.filter
      (fun c => c.username == "bob")).length = 0 := by
  decide

/-- A database satisfying invariant I1 with two one-member homes:
alice leads home 1, bob leads home 2. -/
def vState : DBState :=
  ⟨[⟨1, "alice", "a@x", "Alice", "h", true, some 1⟩,
    ⟨2, "bob", "b@x", "Bob", "h", true, some 2⟩],
   [⟨1, "A", "", "alice"⟩, ⟨2, "B", "", "bob"⟩],
   [⟨1, "alice"⟩, ⟨2, "bob"⟩], [], [], [], 3, 1, 1, 1⟩

/-- C5: `remove_member_from_home` never checks that the target is a
member of the given home.  Alice, leader of home 1, removes bob — who
is a member of home 2 — and the call commits (returns true): bob's
home reference is nulled while his membership row in home 2 survives,
so invariant I1 no longer holds after a committed member removal. -/
theorem inv1_broken_by_remove_member :
    inv1 vState = true ∧
    (removeMemberFromHome vState 1 "bob" "alice").1 = true ∧
    inv1 (removeMemberFromHome vState 1 "bob" "alice").2 = false := by
  decide

/-- C3: for a user of home `hid` (the user exists, refers to `hid`,
the home row exists and the user has a membership row), the
average-gap computation returns the user's summed amounts in the home,
the home's summed amounts divided by the member count (which is at
least 1), `max 0 (avg - user_total)`, and the above-average flag
`user_total ≥ avg`. -/
theorem contribution_to_average_spec
    (s : DBState) (u : String) (usr : UserRec) (hid : Nat) (home : HomeRec)
    (hu : getUser s u = some usr) (hh : usr.homeId = some hid)
    (hg : getHomeRec s hid = some home)
    (hm : (⟨hid, u⟩ : MemberRec) ∈ s.members) :
    1 ≤ (getHomeMembers s hid).length ∧
    (getContributionToAverage s u).homeMembersCount = (getHomeMembers s hid).length ∧
    (getContributionToAverage s u).userTotal =
      ((s.contributions.filter (fun c => c.username == u && c.homeId == hid)).map
        (fun c => c.amount)).sum ∧
    (getContributionToAverage s u).averageContribution =
      ((s.contributions.filter (fun c => c.homeId == hid)).map
        (fun c => c.amount)).sum / ((getHomeMembers s hid).length : ℚ) ∧
    (getContributionToAverage s u).amountToReachAverage =
      max 0 ((getContributionToAverage s u).averageContribution -
        (getContributionToAverage s u).userTotal) ∧
    ((getContributionToAverage s u).isAboveAverage = true ↔
      (getContributionToAverage s u).averageContribution ≤
        (getContributionToAverage s u).userTotal) := by
  have hmf : (⟨hid, u⟩ : MemberRec) ∈ List.filter (fun m => m.homeId == hid) s.members :=
    List.mem_filter.mpr ⟨hm, by exact beq_self_eq_true hid⟩
  have humem : u ∈ getHomeMembers s hid :=
    List.mem_map_of_mem (fun m : MemberRec => m.username) hmf
  have hpos : 0 < (getHomeMembers s hid).length := List.length_pos_of_mem humem
  simp only [getContributionToAverage, hu, hh, hg, gt_iff_lt, hpos, if_true]
  exact ⟨hpos, trivial, trivial, trivial, trivial, decide_eq_true_iff⟩

/-- Witness for C3: bob in the two-member witness home satisfies the
hypotheses, so the member count is at least one. -/
theorem contribution_to_average_spec_witness :
    1 ≤ (getHomeMembers wState 1).length :=
  (contribution_to_average_spec wState "bob" wBob 1 ⟨1, "Maple", "", "alice"⟩
    rfl rfl rfl (by decide)).1

/-- Reduction of a fault-free `create_transfer` run in which every
validation passes: the result is the literal transfer row and the
literal post-state. -/
theorem createTransfer_ok_run
    (s : DBState) (senderU : String) (td : TransferCreate)
    (sender recipient : UserRec) (sh : Nat)
    (hgs : getUser s senderU = some sender)
    (hgr : getUser s td.recipientUsername = some recipient)
    (hsh : sender.homeId = some sh) (hrh : recipient.homeId = some sh)
    (hself : ¬senderU = td.recipientUsername) (hamt : ¬td.amount ≤ 0) :
    createTransfer s senderU td none =
      (.ok { tid := s.nextTransferId, senderUsername := senderU,
             recipientUsername := td.recipientUsername, homeId := sh,
             amount := td.amount,
             description := td.description.getD "Fund transfer to balance contributions" },
       { s with
         transfers := s.transfers ++
           [{ tid := s.nextTransferId, senderUsername := senderU,
              recipientUsername := td.recipientUsername, homeId := sh,
              amount := td.amount,
              description := td.description.getD "Fund transfer to balance contributions" }],
         nextTransferId := s.nextTransferId + 1,
         contributions := s.contributions ++
           [ { cid := s.nextContribId, username := senderU, homeId := sh,
               productName := "Fund transfer to " ++ recipient.fullName,
               amount := td.amount,
               description := "Transfer to " ++ recipient.fullName ++ ": " ++
                 td.description.getD "Balancing household contributions" },
             { cid := s.nextContribId + 1, username := td.recipientUsername,
               homeId := sh,
               productName := "Fund received from " ++ sender.fullName,
               amount := -td.amount,
               description := "Received from " ++ sender.fullName ++ ": " ++
                 td.description.getD "Balancing household contributions" } ],
         nextContribId := s.nextContribId + 2 }) := by
  have hgs1 := hgs
  have hgr1 := hgr
  simp only [getUser] at hgs1 hgr1
  simp only [createTransfer, createContribution, getUser, reduceIte,
    hgs, hgr, hgs1, hgr1, hsh, hrh, hself, hamt, ne_eq, not_true_eq_false,
    if_false, not_false_eq_true, if_true, ite_false, ite_true]
  simp [List.append_assoc]

/-- `create_transfer` fails first on a missing sender or recipient. -/
theorem createTransfer_user_missing
    (s : DBState) (senderU : String) (td : TransferCreate)
    (h : getUser s senderU = none ∨ getUser s td.recipientUsername = none) :
    createTransfer s senderU td none = (.error "User not found", s) := by
  rcases h with h | h
  · simp [createTransfer, h]
  · rcases hgs : getUser s senderU with _ | sender
    · simp [createTransfer, hgs]
    · simp [createTransfer, hgs, h]

/-- `create_transfer` fails with the home-mismatch message when both
users exist but do not share a non-null home. -/
theorem createTransfer_home_mismatch
    (s : DBState) (senderU : String) (td : TransferCreate)
    (sender recipient : UserRec)
    (hgs : getUser s senderU = some sender)
    (hgr : getUser s td.recipientUsername = some recipient)
    (h : ¬∃ hh, sender.homeId = some hh ∧ recipient.homeId = some hh) :
    createTransfer s senderU td none =
      (.error "Users must belong to the same home to transfer money", s) := by
  rcases hsh : sender.homeId with _ | sh
  · simp [createTransfer, hgs, hgr, hsh]
  · rcases hrh : recipient.homeId with _ | rh
    · simp [createTransfer, hgs, hgr, hsh, hrh]
    · have hne : sh ≠ rh := by
        intro he
        exact h ⟨sh, hsh, by rw [hrh, he]⟩
      simp [createTransfer, hgs, hgr, hsh, hrh, hne]

/-- `create_transfer` fails with the self-transfer message when sender
and recipient coincide (and share a home, the earlier check). -/
theorem createTransfer_self
    (s : DBState) (senderU : String) (td : TransferCreate)
    (sender recipient : UserRec) (sh : Nat)
    (hgs : getUser s senderU = some sender)
    (hgr : getUser s td.recipientUsername = some recipient)
    (hsh : sender.homeId = some sh) (hrh : recipient.homeId = some sh)
    (hself : senderU = td.recipientUsername) :
    createTransfer s senderU td none =
      (.error "Cannot transfer to yourself", s) := by
  simp [createTransfer, hgs, hgr, hsh, hrh, hself]

/-- `create_transfer` fails with the non-positive-amount message when
the earlier checks pass and the amount is not positive. -/
theorem createTransfer_nonpos
    (s : DBState) (senderU : String) (td : TransferCreate)
    (sender recipient : UserRec) (sh : Nat)
    (hgs : getUser s senderU = some sender)
    (hgr : getUser s td.recipientUsername = some recipient)
    (hsh : sender.homeId = some sh) (hrh : recipient.homeId = some sh)
    (hself : ¬senderU = td.recipientUsername) (hamt : td.amount ≤ 0) :
    createTransfer s senderU td none =
      (.error "Transfer amount must be positive", s) := by
  simp [createTransfer, hgs, hgr, hsh, hrh, hself, hamt]

/-- C4: `create_transfer` writes a Transfer row exactly when no
failure condition holds, and otherwise raises one of exactly four
errors, each accompanied by its condition — user-not-found when sender
or recipient is missing, home-mismatch when the two users do not share
a non-null home, self-transfer when sender equals recipient, and
non-positive-amount when the amount is at most zero — leaving the
store unchanged. -/
theorem transfer_validation_spec
    (s : DBState) (senderU : String) (td : TransferCreate) :
    ((∃ t s', createTransfer s senderU td none = (.ok t, s') ∧
        s'.transfers = s.transfers ++ [t]) ↔
      ¬((getUser s senderU = none ∨ getUser s td.recipientUsername = none) ∨
        (∃ sender recipient, getUser s senderU = some sender ∧
          getUser s td.recipientUsername = some recipient ∧
          ¬∃ hh, sender.homeId = some hh ∧ recipient.homeId = some hh) ∨
        senderU = td.recipientUsername ∨ td.amount ≤ 0)) ∧
    (∀ e, (createTransfer s senderU td none).1 = .error e →
      (e = "User not found" ∨
       e = "Users must belong to the same home to transfer money" ∨
       e = "Cannot transfer to yourself" ∨
       e = "Transfer amount must be positive") ∧
      (createTransfer s senderU td none).2 = s) ∧
    ((createTransfer s senderU td none).1 = .error "User not found" →
      getUser s senderU = none ∨ getUser s td.recipientUsername = none) ∧
    ((createTransfer s senderU td none).1 =
        .error "Users must belong to the same home to transfer money" →
      ∃ sender recipient, getUser s senderU = some sender ∧
        getUser s td.recipientUsername = some recipient ∧
        ¬∃ hh, sender.homeId = some hh ∧ recipient.homeId = some hh) ∧
    ((createTransfer s senderU td none).1 = .error "Cannot transfer to yourself" →
      senderU = td.recipientUsername) ∧
    ((createTransfer s senderU td none).1 = .error "Transfer amount must be positive" →
      td.amount ≤ 0) := by
  by_cases h1 : getUser s senderU = none ∨ getUser s td.recipientUsername = none
  · rw [createTransfer_user_missing s senderU td h1]
    refine ⟨iff_of_false ?_ (not_not_intro (Or.inl h1)), ?_, ?_, ?_, ?_, ?_⟩
    · rintro ⟨t, s', heq, -⟩
      simp at heq
    · intro e he
      simp only [Except.error.injEq] at he
      exact ⟨Or.inl he.symm, rfl⟩
    · intro _
      exact h1
    · intro hc; simp at hc
    · intro hc; simp at hc
    · intro hc; simp at hc
  · push_neg at h1
    obtain ⟨sender, hgs⟩ := Option.ne_none_iff_exists'.mp h1.1
    obtain ⟨recipient, hgr⟩ := Option.ne_none_iff_exists'.mp h1.2
    by_cases h2 : ∃ hh, sender.homeId = some hh ∧ recipient.homeId = some hh
    · obtain ⟨sh, hsh, hrh⟩ := h2
      by_cases h3 : senderU = td.recipientUsername
      · rw [createTransfer_self s senderU td sender recipient sh hgs hgr hsh hrh h3]
        refine ⟨iff_of_false ?_ (not_not_intro (Or.inr (Or.inr (Or.inl h3)))),
          ?_, ?_, ?_, ?_, ?_⟩
        · rintro ⟨t, s', heq, -⟩
          simp at heq
        · intro e he
          simp only [Except.error.injEq] at he
          exact ⟨Or.inr (Or.inr (Or.inl he.symm)), rfl⟩
        · intro hc; simp at hc
        · intro hc; simp at hc
        · intro _
          exact h3
        · intro hc; simp at hc
      · by_cases h4 : td.amount ≤ 0
        · rw [createTransfer_nonpos s senderU td sender recipient sh hgs hgr hsh hrh h3 h4]
          refine ⟨iff_of_false ?_ (not_not_intro (Or.inr (Or.inr (Or.inr h4)))),
            ?_, ?_, ?_, ?_, ?_⟩
          · rintro ⟨t, s', heq, -⟩
            simp at heq
          · intro e he
            simp only [Except.error.injEq] at he
            exact ⟨Or.inr (Or.inr (Or.inr he.symm)), rfl⟩
          · intro hc; simp at hc
          · intro hc; simp at hc
          · intro hc; simp at hc
          · intro _
            exact h4
        · rw [createTransfer_ok_run s senderU td sender recipient sh hgs hgr hsh hrh h3 h4]
          refine ⟨iff_of_true ⟨_, _, rfl, rfl⟩ ?_, ?_, ?_, ?_, ?_, ?_⟩
          · rintro ((h | h) | (⟨a, b, ha, hb, hnex⟩ | h | h))
            · rw [hgs] at h; exact Option.some_ne_none sender h
            · rw [hgr] at h; exact Option.some_ne_none recipient h
            · rw [hgs] at ha
              rw [hgr] at hb
              rw [Option.some.injEq] at ha hb
              subst ha hb
              exact hnex ⟨sh, hsh, hrh⟩
            · exact h3 h
            · exact h4 h
          · intro e he; simp at he
          · intro hc; simp at hc
          · intro hc; simp at hc
          · intro hc; simp at hc
          · intro hc; simp at hc
    · rw [createTransfer_home_mismatch s senderU td sender recipient hgs hgr h2]
      refine ⟨iff_of_false ?_
        (not_not_intro (Or.inr (Or.inl ⟨sender, recipient, hgs, hgr, h2⟩))),
        ?_, ?_, ?_, ?_, ?_⟩
      · rintro ⟨t, s', heq, -⟩
        simp at heq
      · intro e he
        simp only [Except.error.injEq] at he
        exact ⟨Or.inr (Or.inl he.symm), rfl⟩
      · intro hc; simp at hc
      · intro _
        exact ⟨sender, recipient, hgs, hgr, h2⟩
      · intro hc; simp at hc
      · intro hc; simp at hc

/-- Witness for C4: in the witness household the transfer of 20 from
alice to bob hits no failure condition, so a Transfer row is written. -/
theorem transfer_validation_spec_witness :
    ∃ t s', createTransfer wState "alice" wTd none = (.ok t, s') ∧
      s'.transfers = wState.transfers ++ [t] :=
  (transfer_validation_spec wState "alice" wTd).1.mpr (by
    rintro ((h | h) | (⟨a, b, ha, hb, hnex⟩ | h | h))
    · simp [getUser, wState, wAlice, wBob] at h
    · simp [getUser, wState, wTd, wAlice, wBob] at h
    · rw [show getUser wState "alice" = some wAlice from rfl] at ha
      rw [show getUser wState wTd.recipientUsername = some wBob from rfl] at hb
      rw [Option.some.injEq] at ha hb
      subst ha hb
      exact hnex ⟨1, rfl, rfl⟩
    · simp [wTd] at h
    · norm_num [wTd] at h)

/-- C6: a leader with other members cannot leave (`leave_home` returns
false and changes nothing); a leader who is the sole member leaves
successfully, the home row is destroyed, and a subsequent join request
for that home name fails for every applicant (given home names are
unique, as the schema requires). -/
theorem leader_leave_spec
    (s : DBState) (u : String) (usr : UserRec) (hid : Nat) (home : HomeRec)
    (hu : getUser s u = some usr) (hh : usr.homeId = some hid)
    (hg : getHomeRec s hid = some home) (hl : home.leaderUsername = u) :
    (1 < (getHomeMembers s hid).length → leaveHome s u = (false, s)) ∧
    (s.members.filter (fun m => m.homeId == hid) = [⟨hid, u⟩] →
      (leaveHome s u).1 = true ∧
      getHomeRec (leaveHome s u).2 hid = none ∧
      ((∀ h2 ∈ s.homes, h2.name = home.name → h2.hid = hid) →
        ∀ v, (createJoinRequest (leaveHome s u).2 v home.name).1 = false)) := by
  constructor
  · intro hcount
    simp only [leaveHome, hu, hh, hg]
    rw [if_pos ⟨hl, hcount⟩]
  · intro hsole
    have hmem : getHomeMembers s hid = [u] := by
      unfold getHomeMembers
      rw [hsole]
      rfl
    have hcnt : (getHomeMembers s hid).length = 1 := by rw [hmem]; rfl
    have hred : leaveHome s u =
        (true,
         { s with
           members := s.members.filter
             (fun m => !(m.homeId == hid && m.username == u)),
           users := s.users.map
             (fun x => if x.username = u then { x with homeId := none } else x),
           homes := s.homes.filter (fun h2 => !(h2.hid == hid)) }) := by
      simp only [leaveHome, hu, hh, hg, hcnt]
      rw [if_neg (by simp), if_pos ⟨hl, trivial⟩]
    refine ⟨by rw [hred], ?_, ?_⟩
    · rw [hred]
      simp only [getHomeRec, List.find?_eq_none]
      intro x hx
      have := (List.mem_filter.mp hx).2
      simp only [Bool.not_eq_true'] at this
      simp [this]
    · intro hname v
      rw [hred]
      have hfind : ((({ s with
          members := s.members.filter
            (fun m => !(m.homeId == hid && m.username == u)),
          users := s.users.map
            (fun x => if x.username = u then { x with homeId := none } else x),
          homes := s.homes.filter (fun h2 => !(h2.hid == hid)) } : DBState)).homes.find?
            (fun h2 => h2.name == home.name)) = none := by
        rw [List.find?_eq_none]
        intro x hx
        obtain ⟨hxs, hxb⟩ := List.mem_filter.mp hx
        simp only [Bool.not_eq_true', beq_eq_false_iff_ne, ne_eq] at hxb
        intro hcontra
        exact hxb (by
          have : x.name = home.name := by simpa using hcontra
          simpa using hname x hxs this)
      simp [createJoinRequest, hfind]

/-- Witness for C6: bob is the sole member and leader of home 2 in
`vState`; leaving succeeds, destroys home "B", and a later join
request by alice for "B" fails. -/
theorem leader_leave_spec_witness :
    (leaveHome vState "bob").1 = true ∧
    getHomeRec (leaveHome vState "bob").2 2 = none ∧
    (createJoinRequest (leaveHome vState "bob").2 "alice" "B").1 = false := by
  have h := (leader_leave_spec vState "bob"
    ⟨2, "bob", "b@x", "Bob", "h", true, some 2⟩ 2 ⟨2, "B", "", "bob"⟩
    rfl rfl rfl rfl).2 (by decide)
  exact ⟨h.1, h.2.1, h.2.2 (by decide) "alice"⟩

/-- C8: `delete_contribution` returns true iff a row with the given id
and author exists; on false the ledger is unchanged; on success the
matching rows are gone, every other row survives, and nothing new
appears. -/
theorem delete_contribution_spec (s : DBState) (cid : Nat) (r : String) :
    ((deleteContribution s cid r).1 = true ↔
      ∃ c ∈ s.contributions, c.cid = cid ∧ c.username = r) ∧
    ((deleteContribution s cid r).1 = false → (deleteContribution s cid r).2 = s) ∧
    (∀ c ∈ s.contributions, ¬(c.cid = cid ∧ c.username = r) →
      c ∈ (deleteContribution s cid r).2.contributions) ∧
    (∀ c ∈ (deleteContribution s cid r).2.contributions, c ∈ s.contributions) ∧
    (∀ c ∈ s.contributions, c.cid = cid ∧ c.username = r →
      c ∉ (deleteContribution s cid r).2.contributions) := by
  refine ⟨?_, ?_, ?_, ?_, ?_⟩
  · simp only [deleteContribution, decide_eq_true_iff,
      List.length_filter_lt_length_iff_exists]
    constructor
    · rintro ⟨c, hc, hp⟩
      refine ⟨c, hc, ?_⟩
      simpa using hp
    · rintro ⟨c, hc, hp⟩
      refine ⟨c, hc, ?_⟩
      simpa using hp
  · intro hfalse
    simp only [deleteContribution, decide_eq_false_iff_not, Nat.not_lt] at hfalse
    have hlen : (s.contributions.filter
        (fun c => !(c.cid == cid && c.username == r))).length =
        s.contributions.length :=
      Nat.le_antisymm (List.length_filter_le _ _) hfalse
    simp only [deleteContribution]
    rw [List.filter_eq_self.mpr (List.filter_length_eq_length.mp hlen)]
  · intro c hc hnot
    simp only [deleteContribution]
    refine List.mem_filter.mpr ⟨hc, ?_⟩
    rw [Bool.not_eq_true']
    by_cases hcid : c.cid = cid
    · have hr : ¬c.username = r := fun hr => hnot ⟨hcid, hr⟩
      simp [hcid, hr]
    · simp [hcid]
  · intro c hc
    simp only [deleteContribution] at hc
    exact (List.mem_filter.mp hc).1
  · intro c hc hmatch hcontra
    simp only [deleteContribution] at hcontra
    have := (List.mem_filter.mp hcontra).2
    simp [hmatch.1, hmatch.2] at this

/-- Witness for C8: in the post-transfer witness ledger, bob cannot
delete alice's fund-transfer contribution (row 1): the call reports
false and the ledger still holds both rows. -/
theorem delete_contribution_spec_witness :
    (deleteContribution wPost 1 "bob").1 = false ∧
    (deleteContribution wPost 1 "bob").2 = wPost :=
  ⟨by decide, (delete_contribution_spec wPost 1 "bob").2.1 (by decide)⟩

/-- C7: a token that currently verifies as an access token is
blacklisted by `revoke_token`, the blacklist only ever grows, and in
any state whose blacklist contains the token every verification of it
— at any time and for any expected kind — fails with the revoked
error. -/
theorem revoked_token_never_verifies
    (s : AuthState) (now : Int) (token : String) (p : Payload)
    (h : verifyToken s now token "access" = .ok p) :
    token ∈ (revokeToken s now token).blacklist ∧
    (∀ (s2 : AuthState) (now2 : Int) (tok2 : String),
      s2.blacklist ⊆ (revokeToken s2 now2 tok2).blacklist) ∧
    (∀ (s' : AuthState) (now' : Int) (kind : String),
      (revokeToken s now token).blacklist ⊆ s'.blacklist →
      verifyToken s' now' token kind = .error .revoked) := by
  have hne : token ≠ "" := by
    intro he
    rw [he] at h
    simp [verifyToken] at h
  have hrev : revokeToken s now token = { s with blacklist := token :: s.blacklist } := by
    simp [revokeToken, h]
  have hmem : token ∈ (revokeToken s now token).blacklist := by
    rw [hrev]
    exact List.mem_cons_self _ _
  refine ⟨hmem, ?_, ?_⟩
  · intro s2 now2 tok2
    rcases hv : verifyToken s2 now2 tok2 "access" with e | q
    · simp [revokeToken, hv]
    · simp [revokeToken, hv]
  · intro s' now' kind hsub
    have hmem' : token ∈ s'.blacklist := hsub hmem
    simp [verifyToken, hne, hmem']

/-- The auth state used by the witnesses: one valid access token
"tok" for alice expiring at time 100, a blacklisted string "badtok",
and a signed refresh token "rtok". -/
def wAuth : AuthState :=
  ⟨[("tok", ⟨"alice", 100, "access", "j1"⟩),
    ("rtok", ⟨"alice", 100, "refresh", "j2"⟩)], ["badtok"]⟩

/-- Witness for C7: after revoking the verified access token "tok",
verifying it again fails with the revoked error. -/
theorem revoked_token_never_verifies_witness :
    verifyToken (revokeToken wAuth 0 "tok") 0 "tok" "access" = .error .revoked :=
  (revoked_token_never_verifies wAuth 0 "tok" ⟨"alice", 100, "access", "j1"⟩
    rfl).2.2 (revokeToken wAuth 0 "tok") 0 "access" (List.Subset.refl _)

/-- C10: `verify_token` checks in a fixed order — an empty token fails
with the missing error before anything else; a blacklisted token fails
with the revoked error before signature or expiry are examined (so a
revoked-and-expired token reports revoked); and the wrong-kind error
can only arise once decoding (signature and expiry) has succeeded. -/
theorem verify_precedence_spec :
    (∀ (s : AuthState) (now : Int) (kind : String),
      verifyToken s now "" kind = .error .missing) ∧
    (∀ (s : AuthState) (now : Int) (token : String) (kind : String),
      token ≠ "" → token ∈ s.blacklist →
      verifyToken s now token kind = .error .revoked) ∧
    (∀ (s : AuthState) (now : Int) (token : String) (kind : String),
      verifyToken s now token kind = .error .wrongKind →
      ∃ p, decodeToken s now token = .ok p ∧ p.kind ≠ kind) := by
  refine ⟨?_, ?_, ?_⟩
  · intro s now kind
    simp [verifyToken]
  · intro s now token kind hne hmem
    simp [verifyToken, hne, hmem]
  · intro s now token kind h
    unfold verifyToken at h
    split_ifs at h with h1 h2
    · simp at h
    · simp at h
    · rcases hd : decodeToken s now token with e | p2
      · rw [hd] at h
        simp only at h
        injection h with he
        subst he
        unfold decodeToken at hd
        split at hd
        · simp at hd
        · split_ifs at hd <;> simp at hd
      · rw [hd] at h
        simp only at h
        split_ifs at h with hk
        exact ⟨p2, rfl, hk⟩

/-- Witness for C10: the three precedence facts at concrete inputs —
the empty token, the blacklisted "badtok", and the refresh token
"rtok" verified with expected kind "access". -/
theorem verify_precedence_spec_witness :
    verifyToken wAuth 0 "" "access" = .error .missing ∧
    verifyToken wAuth 0 "badtok" "access" = .error .revoked ∧
    ∃ p, decodeToken wAuth 0 "rtok" = .ok p ∧ p.kind ≠ "access" :=
  ⟨verify_precedence_spec.1 wAuth 0 "access",
   verify_precedence_spec.2.1 wAuth 0 "badtok" "access" (by decide) (by decide),
   verify_precedence_spec.2.2 wAuth 0 "rtok" "access" rfl⟩

/-- A pattern that prefixes `pre` also prefixes `pre ++ x`. -/
theorem strStartsWith_of_append (p pre x : String)
    (h : p.data.isPrefixOf pre.data = true) :
    strStartsWith p (pre ++ x) = true := by
  unfold strStartsWith
  rw [String.data_append]
  rw [List.isPrefixOf_iff_prefix] at h ⊢
  exact h.trans (List.prefix_append _ _)

/-- A contribution whose product name starts with either sentinel is a
fund row. -/
theorem isFundRow_of_name (c : ContribRec)
    (h : strStartsWith "Fund transfer" c.productName = true ∨
         strStartsWith "Fund received" c.productName = true) :
    isFundRow c = true := by
  unfold isFundRow
  rcases h with h | h <;> simp [h]

/-- C9: the product rollup of a home contains a product exactly when
some non-fund contribution of the home carries it; each entry's count
and sum aggregate exactly the non-fund rows of that product; and a
transfer leaves every home's product rollup unchanged, because its two
generated contributions match the excluded sentinels. -/
theorem product_rollup_spec (s : DBState) (hid : Nat) :
    (∀ p, (∃ e ∈ productRollup s hid, e.1 = p) ↔
      ∃ c ∈ s.contributions, c.homeId = hid ∧ isFundRow c = false ∧
        c.productName = p) ∧
    (∀ e ∈ productRollup s hid,
      e.2.1 = (s.contributions.filter (fun c =>
        (c.homeId == hid && !(isFundRow c)) && c.productName == e.1)).length ∧
      e.2.2 = ((s.contributions.filter (fun c =>
        (c.homeId == hid && !(isFundRow c)) && c.productName == e.1)).map
          (fun c => c.amount)).sum) ∧
    (∀ (senderU : String) (td : TransferCreate) (t : TransferRec) (s' : DBState),
      createTransfer s senderU td none = (.ok t, s') →
      ∀ hid2, productRollup s' hid2 = productRollup s hid2) := by
  have hsw : ∀ q : String,
      (s.contributions.filter (fun c => c.homeId == hid && !(isFundRow c))).filter
        (fun c => c.productName == q) =
      s.contributions.filter (fun c =>
        (c.homeId == hid && !(isFundRow c)) && c.productName == q) := by
    intro q
    rw [List.filter_filter]
    exact List.filter_congr (fun a _ => Bool.and_comm _ _)
  refine ⟨?_, ?_, ?_⟩
  · intro p
    simp only [productRollup, List.mem_insertionSort]
    constructor
    · rintro ⟨e, he, rfl⟩
      obtain ⟨q, hq, rfl⟩ := List.mem_map.mp he
      obtain ⟨c, hc, rfl⟩ := List.mem_map.mp (List.mem_dedup.mp hq)
      obtain ⟨hcs, hcb⟩ := List.mem_filter.mp hc
      simp only [Bool.and_eq_true, beq_iff_eq, Bool.not_eq_true'] at hcb
      exact ⟨c, hcs, hcb.1, hcb.2, rfl⟩
    · rintro ⟨c, hc, hhome, hfund, rfl⟩
      have hcrow : c ∈ s.contributions.filter
          (fun c => c.homeId == hid && !(isFundRow c)) :=
        List.mem_filter.mpr ⟨hc, by simp [hhome, hfund]⟩
      have hprod := List.mem_dedup.mpr
        (List.mem_map_of_mem (fun c : ContribRec => c.productName) hcrow)
      exact ⟨_, List.mem_map_of_mem _ hprod, rfl⟩
  · intro e he
    simp only [productRollup, List.mem_insertionSort] at he
    obtain ⟨q, hq, rfl⟩ := List.mem_map.mp he
    exact ⟨congrArg List.length (hsw q),
      congrArg (fun l => (l.map (fun c : ContribRec => c.amount)).sum) (hsw q)⟩
  · intro senderU td t s' h hid2
    obtain ⟨sender, recipient, sh, hgs, hgr, hsh, hrh, hne, hpos, ht, hs'⟩ :=
      createTransfer_ok_effects s senderU td t s' h
    subst hs'
    have h1 : isFundRow
        { cid := s.nextContribId, username := senderU, homeId := sh,
          productName := "Fund transfer to " ++ recipient.fullName,
          amount := td.amount,
          description := "Transfer to " ++ recipient.fullName ++ ": " ++
            td.description.getD "Balancing household contributions" } = true :=
      isFundRow_of_name _
        (Or.inl (strStartsWith_of_append "Fund transfer" "Fund transfer to "
          recipient.fullName (by decide)))
    have h2 : isFundRow
        { cid := s.nextContribId + 1, username := td.recipientUsername,
          homeId := sh,
          productName := "Fund received from " ++ sender.fullName,
          amount := -td.amount,
          description := "Received from " ++ sender.fullName ++ ": " ++
            td.description.getD "Balancing household contributions" } = true :=
      isFundRow_of_name _
        (Or.inr (strStartsWith_of_append "Fund received" "Fund received from "
          sender.fullName (by decide)))
    simp only [productRollup, List.filter_append, h1, h2]
    simp [h1, h2]

/-- Witness for C9: in the post-transfer witness database the two fund
rows are invisible — home 1's product rollup equals the pre-transfer
rollup (the empty one). -/
theorem product_rollup_spec_witness :
    productRollup wPost 1 = productRollup wState 1 :=
  (product_rollup_spec wState 1).2.2 "alice" wTd wT wPost rfl 1
